import Mathlib

/-!
AgriMatch trade-coordination core, shallowly embedded in Lean.

The embedding follows the repository sources:
  * app/models/order.py, app/models/escrow.py, app/models/bid.py: enumerations
    and row types (monetary columns are integer cents; volumes and prices are
    embedded as rationals).
  * app/services/escrow_service.py: the tripartite escrow machine.
  * app/services/order_fsm.py: the order finite state machine, bid submission,
    bid acceptance and rollback.
  * app/routers/verify.py: pickup verification and the dispute endpoint.
  * app/routers/logistics.py and app/services/spatial_service.py: the
    middleman search call and its SQL row filter.

Database rows locked and mutated inside one transaction are modelled by pure
state passing; an operation that raises inside the transaction is modelled as
returning an error value and leaving the state unchanged (the transaction
rolls back).  External processor calls (Stripe) only store opaque handles on
the rows; the local counter and status mutations they accompany are identical
in the demo and non-demo branches and are what the embedding records.
Timestamps are abstract instants (naturals) supplied by the caller.
-/

namespace AgriMatch

/-- Order lifecycle states, from OrderStatus in app/models/order.py. -/
inductive OrderStatus
  | LISTED
  | NEGOTIATING
  | LOGISTICS_SEARCH
  | IN_TRANSIT
  | SETTLED
  | CANCELLED
deriving DecidableEq, Repr

/-- Escrow states, from EscrowStatus in app/models/escrow.py. -/
inductive EscrowStatus
  | WAITING_FUNDS
  | FUNDS_HELD
  | PICKED_UP
  | DELIVERED
  | CANCELLED
deriving DecidableEq, Repr

/-- Bid states, from BidStatus in app/models/bid.py. -/
inductive BidStatus
  | PENDING
  | ACCEPTED
  | REJECTED
  | WITHDRAWN
deriving DecidableEq, Repr

/-- Truck types, from TruckType in app/models/middleman.py. -/
inductive TruckType
  | REEFER
  | VENTILATED
  | INSULATED
  | DRY_VAN
deriving DecidableEq, Repr

/-- The escrow row (app/models/escrow.py), restricted to the columns the
escrow machine reads or writes.  All monetary columns are integer cents. -/
structure Escrow where
  total_amount_cents : Int
  farmer_released_cents : Int
  middleman_released_cents : Int
  refunded_cents : Int
  status : EscrowStatus
  stripe_payment_intent_id : Option String
  funds_held_at : Option Nat
  picked_up_at : Option Nat
  delivered_at : Option Nat
  cancelled_at : Option Nat
deriving DecidableEq, Repr

/-- A fresh escrow row as accept_bid creates it (app/services/order_fsm.py):
counters at their column defaults 0, status WAITING_FUNDS, no intent yet. -/
def mk_escrow (total : Int) : Escrow :=
  { total_amount_cents := total
    farmer_released_cents := 0
    middleman_released_cents := 0
    refunded_cents := 0
    status := EscrowStatus.WAITING_FUNDS
    stripe_payment_intent_id := none
    funds_held_at := none
    picked_up_at := none
    delivered_at := none
    cancelled_at := none }

/-- Farmer tranche at pickup, from release_pickup in
app/services/escrow_service.py: the source computes int(total * 0.20); for
every integer amount of cents in the representable range that float
truncation coincides with floor division of the integer by 5, which is the
integer-cents computation embedded here. -/
def farmer_pickup_cents (total : Int) : Int := total * 20 / 100

/-- Final farmer tranche at delivery, int(total * 0.60) in release_delivery,
embedded as the coinciding floor division on integer cents. -/
def farmer_final_cents (total : Int) : Int := total * 60 / 100

/-- Middleman tranche at delivery, int(total * 0.20) in release_delivery. -/
def middleman_cents (total : Int) : Int := total * 20 / 100

/-- create_payment_intent (app/services/escrow_service.py): stores the
processor intent handle on the escrow and returns a client secret.  Counters
and status are untouched in both the demo and the live branch; the generated
handle is supplied by the caller. -/
def create_payment_intent (intent_id : String) (e : Escrow) : Escrow × String :=
  ({ e with stripe_payment_intent_id := some intent_id }, "secret_" ++ intent_id)

/-- handle_payment_succeeded (app/services/escrow_service.py): returns
silently unless the escrow is WAITING_FUNDS; otherwise captures the intent
(external call), sets FUNDS_HELD and stamps funds_held_at. -/
def handle_payment_succeeded (now : Nat) (e : Escrow) : Escrow :=
  if e.status ≠ EscrowStatus.WAITING_FUNDS then e
  else { e with status := EscrowStatus.FUNDS_HELD, funds_held_at := some now }

/-- release_pickup (app/services/escrow_service.py): requires FUNDS_HELD
(raises ValueError otherwise), releases the 20 percent pickup tranche to the
farmer and moves to PICKED_UP. -/
def release_pickup (now : Nat) (e : Escrow) : Except String Escrow :=
  if e.status ≠ EscrowStatus.FUNDS_HELD then
    Except.error "expected FUNDS_HELD"
  else
    Except.ok { e with
      farmer_released_cents :=
        e.farmer_released_cents + farmer_pickup_cents e.total_amount_cents
      status := EscrowStatus.PICKED_UP
      picked_up_at := some now }

/-- release_delivery (app/services/escrow_service.py): requires PICKED_UP
(raises ValueError otherwise), releases 60 percent to the farmer and
20 percent to the middleman and moves to DELIVERED. -/
def release_delivery (now : Nat) (e : Escrow) : Except String Escrow :=
  if e.status ≠ EscrowStatus.PICKED_UP then
    Except.error "expected PICKED_UP"
  else
    Except.ok { e with
      farmer_released_cents :=
        e.farmer_released_cents + farmer_final_cents e.total_amount_cents
      middleman_released_cents :=
        e.middleman_released_cents + middleman_cents e.total_amount_cents
      status := EscrowStatus.DELIVERED
      delivered_at := some now }

/-- cancel_escrow (app/services/escrow_service.py): returns silently on
CANCELLED; from every other status (the source guards only against
CANCELLED) it sets refunded_cents to total minus farmer_released_cents and
moves to CANCELLED.  Processor cancel or refund failures are logged and do
not block this local transition. -/
def cancel_escrow (now : Nat) (e : Escrow) : Escrow :=
  if e.status = EscrowStatus.CANCELLED then e
  else { e with
    refunded_cents := e.total_amount_cents - e.farmer_released_cents
    status := EscrowStatus.CANCELLED
    cancelled_at := some now }

/-- One escrow-machine operation, tagged with the instant it runs and, for
intent creation, the generated handle. -/
inductive EscrowOp
  | createIntent (intent_id : String)
  | paymentSucceeded (now : Nat)
  | releasePickup (now : Nat)
  | releaseDelivery (now : Nat)
  | cancel (now : Nat)
deriving DecidableEq, Repr

/-- Apply one escrow operation.  An operation that raises (release outside
its required status) leaves the row unchanged: the enclosing transaction
rolls back. -/
def runEscrowOp (e : Escrow) (op : EscrowOp) : Escrow :=
  match op with
  | EscrowOp.createIntent i => (create_payment_intent i e).1
  | EscrowOp.paymentSucceeded t => handle_payment_succeeded t e
  | EscrowOp.releasePickup t =>
      match release_pickup t e with
      | Except.ok e2 => e2
      | Except.error _ => e
  | EscrowOp.releaseDelivery t =>
      match release_delivery t e with
      | Except.ok e2 => e2
      | Except.error _ => e
  | EscrowOp.cancel t => cancel_escrow t e

/-- Apply a sequence of escrow operations in order. -/
def runEscrowOps (e : Escrow) (ops : List EscrowOp) : Escrow :=
  ops.foldl runEscrowOp e

/-- True when, along the whole trace, cancel_escrow is never invoked on an
escrow that has already reached DELIVERED. -/
def noCancelFromDelivered : Escrow → List EscrowOp → Bool
  | _, [] => true
  | e, op :: ops =>
      (match op with
       | EscrowOp.cancel _ => decide (e.status ≠ EscrowStatus.DELIVERED)
       | _ => true)
      && noCancelFromDelivered (runEscrowOp e op) ops

/-- Characterisation of the escrow counters in every status reachable without
cancelling a DELIVERED escrow: nothing released before pickup, the pickup
tranche after PICKED_UP, all three tranches after DELIVERED, and on
CANCELLED a refund completing the farmer tranche with nothing ever sent to
the middleman. -/
def escrowCountersOk (e : Escrow) : Prop :=
  match e.status with
  | EscrowStatus.WAITING_FUNDS =>
      e.farmer_released_cents = 0 ∧ e.middleman_released_cents = 0 ∧
        e.refunded_cents = 0
  | EscrowStatus.FUNDS_HELD =>
      e.farmer_released_cents = 0 ∧ e.middleman_released_cents = 0 ∧
        e.refunded_cents = 0
  | EscrowStatus.PICKED_UP =>
      e.farmer_released_cents = farmer_pickup_cents e.total_amount_cents ∧
        e.middleman_released_cents = 0 ∧ e.refunded_cents = 0
  | EscrowStatus.DELIVERED =>
      e.farmer_released_cents =
          farmer_pickup_cents e.total_amount_cents +
            farmer_final_cents e.total_amount_cents ∧
        e.middleman_released_cents = middleman_cents e.total_amount_cents ∧
        e.refunded_cents = 0
  | EscrowStatus.CANCELLED =>
      e.middleman_released_cents = 0 ∧
        e.refunded_cents + e.farmer_released_cents = e.total_amount_cents ∧
        0 ≤ e.farmer_released_cents ∧
        e.farmer_released_cents ≤ e.total_amount_cents

theorem runEscrowOp_total (e : Escrow) (op : EscrowOp) :
    (runEscrowOp e op).total_amount_cents = e.total_amount_cents := by
  rcases e with ⟨tot, f, m, r, st, i, t1, t2, t3, t4⟩
  rcases op with id | t | t | t | t <;> rcases st <;>
    simp [runEscrowOp, create_payment_intent, handle_payment_succeeded,
      release_pickup, release_delivery, cancel_escrow]

theorem escrowCountersOk_step (e : Escrow) (op : EscrowOp)
    (h0 : 0 ≤ e.total_amount_cents) (hinv : escrowCountersOk e)
    (hc : ∀ t, op = EscrowOp.cancel t → e.status ≠ EscrowStatus.DELIVERED) :
    escrowCountersOk (runEscrowOp e op) := by
  rcases e with ⟨tot, f, m, r, st, i, t1, t2, t3, t4⟩
  rcases op with id | t | t | t | t <;> rcases st <;>
    first
      | exact absurd rfl (hc _ rfl)
      | (simp [runEscrowOp, create_payment_intent, handle_payment_succeeded,
           release_pickup, release_delivery, cancel_escrow, escrowCountersOk,
           farmer_pickup_cents, farmer_final_cents, middleman_cents]
           at hinv h0 ⊢ <;> omega)

theorem runEscrowOps_total (e : Escrow) (ops : List EscrowOp) :
    (runEscrowOps e ops).total_amount_cents = e.total_amount_cents := by
  induction ops generalizing e with
  | nil => rfl
  | cons op ops ih =>
      calc (runEscrowOps (runEscrowOp e op) ops).total_amount_cents
          = (runEscrowOp e op).total_amount_cents := ih (runEscrowOp e op)
        _ = e.total_amount_cents := runEscrowOp_total e op

theorem escrowCountersOk_run (e : Escrow) (ops : List EscrowOp)
    (h0 : 0 ≤ e.total_amount_cents) (hinv : escrowCountersOk e)
    (hc : noCancelFromDelivered e ops = true) :
    escrowCountersOk (runEscrowOps e ops) := by
  induction ops generalizing e with
  | nil => exact hinv
  | cons op ops ih =>
      simp only [noCancelFromDelivered, Bool.and_eq_true] at hc
      refine ih (runEscrowOp e op) ?_ ?_ hc.2
      · rw [runEscrowOp_total]; exact h0
      · refine escrowCountersOk_step e op h0 hinv ?_
        intro t hop
        subst hop
        simpa using hc.1

theorem escrowCountersOk_cap (e : Escrow) (h0 : 0 ≤ e.total_amount_cents)
    (hinv : escrowCountersOk e) :
    e.farmer_released_cents + e.middleman_released_cents + e.refunded_cents
        ≤ e.total_amount_cents ∧
      (e.status = EscrowStatus.DELIVERED →
        e.total_amount_cents ≤
          e.farmer_released_cents + e.middleman_released_cents +
            e.refunded_cents + 2) ∧
      (e.status = EscrowStatus.CANCELLED →
        e.refunded_cents + e.farmer_released_cents = e.total_amount_cents) := by
  rcases e with ⟨tot, f, m, r, st, i, t1, t2, t3, t4⟩
  rcases st <;>
    simp [escrowCountersOk, farmer_pickup_cents, farmer_final_cents,
      middleman_cents] at hinv h0 ⊢ <;>
    omega

/-- The happy-path escrow trace of spec Scenario A: the intent succeeds, then
pickup and delivery are verified in order. -/
def happyPathOps : List EscrowOp :=
  [EscrowOp.paymentSucceeded 0, EscrowOp.releasePickup 1,
    EscrowOp.releaseDelivery 2]

/-- The trace that cancels an escrow which has already reached DELIVERED:
the source guards cancel_escrow only against CANCELLED. -/
def cancelAfterDeliveredOps : List EscrowOp :=
  happyPathOps ++ [EscrowOp.cancel 3]

/-- C1 counterexample: on a 100-cent escrow, running the payment webhook,
pickup release and delivery release reaches DELIVERED (a terminal state);
a subsequent cancel_escrow nevertheless moves it to CANCELLED, and in the
resulting state farmer_released + middleman_released + refunded = 120
exceeds total_amount_cents = 100, refuting both the release cap and the
reachability part of the claim. -/
theorem escrow_cancel_from_delivered_counterexample :
    (runEscrowOps (mk_escrow 100) happyPathOps).status =
        EscrowStatus.DELIVERED ∧
      (runEscrowOps (mk_escrow 100) cancelAfterDeliveredOps).status =
        EscrowStatus.CANCELLED ∧
      ¬ ((runEscrowOps (mk_escrow 100)
              cancelAfterDeliveredOps).farmer_released_cents +
            (runEscrowOps (mk_escrow 100)
              cancelAfterDeliveredOps).middleman_released_cents +
            (runEscrowOps (mk_escrow 100)
              cancelAfterDeliveredOps).refunded_cents ≤
          (runEscrowOps (mk_escrow 100)
            cancelAfterDeliveredOps).total_amount_cents) := by
  decide

/-- C1 (amended): for every escrow created with a nonnegative total, after
any sequence of the five escrow operations in which cancel_escrow is never
invoked on an escrow already DELIVERED, the counters satisfy
farmer_released + middleman_released + refunded ≤ total, with equality up to
at most 2 cents once the escrow is DELIVERED, and
refunded + farmer_released = total once it is CANCELLED; total_amount_cents
never changes.  (In the source, cancel_escrow guards only against CANCELLED,
so CANCELLED is additionally reachable from the terminal DELIVERED state,
and that path violates the cap: see the counterexample.) -/
theorem escrow_lifecycle_invariant (total : Int) (ops : List EscrowOp)
    (h0 : 0 ≤ total)
    (hc : noCancelFromDelivered (mk_escrow total) ops = true) :
    (runEscrowOps (mk_escrow total) ops).farmer_released_cents +
        (runEscrowOps (mk_escrow total) ops).middleman_released_cents +
        (runEscrowOps (mk_escrow total) ops).refunded_cents ≤ total ∧
      ((runEscrowOps (mk_escrow total) ops).status = EscrowStatus.DELIVERED →
        total ≤
          (runEscrowOps (mk_escrow total) ops).farmer_released_cents +
            (runEscrowOps (mk_escrow total) ops).middleman_released_cents +
            (runEscrowOps (mk_escrow total) ops).refunded_cents + 2) ∧
      ((runEscrowOps (mk_escrow total) ops).status = EscrowStatus.CANCELLED →
        (runEscrowOps (mk_escrow total) ops).refunded_cents +
            (runEscrowOps (mk_escrow total) ops).farmer_released_cents =
          total) ∧
      (runEscrowOps (mk_escrow total) ops).total_amount_cents = total := by
  have htot : (runEscrowOps (mk_escrow total) ops).total_amount_cents =
      total := runEscrowOps_total (mk_escrow total) ops
  have hinv : escrowCountersOk (runEscrowOps (mk_escrow total) ops) :=
    escrowCountersOk_run (mk_escrow total) ops h0 (by
      simp [escrowCountersOk, mk_escrow]) hc
  have hcap := escrowCountersOk_cap (runEscrowOps (mk_escrow total) ops)
    (by rw [htot]; exact h0) hinv
  rw [htot] at hcap
  exact ⟨hcap.1, hcap.2.1, hcap.2.2, htot⟩

/-- C1 witness: the invariant instantiated on Scenario A, a 3000-cent escrow
run through payment, pickup and delivery. -/
theorem escrow_lifecycle_invariant_witness :
    (0 : Int) ≤ 3000 ∧
      noCancelFromDelivered (mk_escrow 3000) happyPathOps = true ∧
      ((runEscrowOps (mk_escrow 3000) happyPathOps).farmer_released_cents +
          (runEscrowOps (mk_escrow 3000) happyPathOps).middleman_released_cents +
          (runEscrowOps (mk_escrow 3000) happyPathOps).refunded_cents ≤ 3000 ∧
        ((runEscrowOps (mk_escrow 3000) happyPathOps).status =
            EscrowStatus.DELIVERED →
          (3000 : Int) ≤
            (runEscrowOps (mk_escrow 3000) happyPathOps).farmer_released_cents +
              (runEscrowOps (mk_escrow 3000)
                happyPathOps).middleman_released_cents +
              (runEscrowOps (mk_escrow 3000) happyPathOps).refunded_cents +
              2) ∧
        ((runEscrowOps (mk_escrow 3000) happyPathOps).status =
            EscrowStatus.CANCELLED →
          (runEscrowOps (mk_escrow 3000) happyPathOps).refunded_cents +
              (runEscrowOps (mk_escrow 3000) happyPathOps).farmer_released_cents =
            3000) ∧
        (runEscrowOps (mk_escrow 3000) happyPathOps).total_amount_cents =
          3000) :=
  ⟨by decide, by decide,
    escrow_lifecycle_invariant 3000 happyPathOps (by decide) (by decide)⟩

/-- The order row (app/models/order.py), restricted to the columns the FSM
reads or writes.  Volumes and prices are embedded as exact rationals;
identifiers are naturals standing for the uuid keys. -/
structure Order where
  id : Nat
  farmer_id : Nat
  buyer_id : Option Nat
  total_volume_kg : Rat
  available_volume_kg : Rat
  unit_price_asking : Rat
  accepted_price : Option Rat
  status : OrderStatus
  requires_cold_chain : Bool
  logistics_search_started_at : Option Nat
  pickup_qr_hash : Option String
  delivery_qr_hash : Option String
  settled_at : Option Nat
deriving DecidableEq, Repr

/-- The bid row (app/models/bid.py). -/
structure Bid where
  id : Nat
  order_id : Nat
  buyer_id : Nat
  offered_price_per_kg : Rat
  volume_kg : Rat
  status : BidStatus
  message : Option String
deriving DecidableEq, Repr

/-- An audit row (app/models/audit_log.py) as the FSM writes it; the
free-form extra_data bag is not modelled here (the dispute endpoint, whose
extra_data carries the location proof, has its own record below). -/
structure AuditLog where
  order_id : Nat
  from_status : OrderStatus
  to_status : OrderStatus
  actor_type : String
  actor_id : Option Nat
  reason : Option String
deriving DecidableEq, Repr

/-- The slice of the database the FSM operations touch: the orders table as
a key-indexed map, the bids and escrows tables, and the append-only audit
log. -/
structure Db where
  orders : Nat → Option Order
  bids : List Bid
  escrows : List Escrow
  audit_logs : List AuditLog

/-- Write back the row locked at key i, as the ORM flush does. -/
def setOrderAt (db : Db) (i : Nat) (o : Order) : Db :=
  { db with orders := fun j => if j = i then some o else db.orders j }

/-- VALID_TRANSITIONS from app/services/order_fsm.py. -/
def VALID_TRANSITIONS : OrderStatus → List OrderStatus
  | OrderStatus.LISTED => [OrderStatus.NEGOTIATING]
  | OrderStatus.NEGOTIATING => [OrderStatus.LOGISTICS_SEARCH, OrderStatus.LISTED]
  | OrderStatus.LOGISTICS_SEARCH => [OrderStatus.IN_TRANSIT, OrderStatus.LISTED]
  | OrderStatus.IN_TRANSIT => [OrderStatus.SETTLED]
  | OrderStatus.SETTLED => []
  | OrderStatus.CANCELLED => []

/-- The transition table of spec section 4.1, written as the list of its
permitted (from, to) edges.  Stated from the specification text, to be
compared with VALID_TRANSITIONS, which is translated from the source. -/
def specTransitionTable : List (OrderStatus × OrderStatus) :=
  [(OrderStatus.LISTED, OrderStatus.NEGOTIATING),
    (OrderStatus.NEGOTIATING, OrderStatus.LOGISTICS_SEARCH),
    (OrderStatus.NEGOTIATING, OrderStatus.LISTED),
    (OrderStatus.LOGISTICS_SEARCH, OrderStatus.IN_TRANSIT),
    (OrderStatus.LOGISTICS_SEARCH, OrderStatus.LISTED),
    (OrderStatus.IN_TRANSIT, OrderStatus.SETTLED)]

/-- The typed errors of app/services/order_fsm.py. -/
inductive FsmError
  | OrderNotFound
  | InvalidTransition (from_status to_status : OrderStatus)
  | InvalidBidTransition (from_status to_status : BidStatus)
  | InsufficientVolume
  | BidNotFound
  | Unauthorized
deriving DecidableEq, Repr

/-- transition_order (app/services/order_fsm.py): locks the order row, fails
with OrderNotFound when absent and with InvalidTransition when the edge is
not in VALID_TRANSITIONS; otherwise sets the status, stamps
logistics_search_started_at on entering LOGISTICS_SEARCH and settled_at on
entering SETTLED, and appends one audit row.  An error leaves the database
unchanged (the transaction rolls back). -/
def transition_order (db : Db) (now : Nat) (order_id : Nat)
    (to_status : OrderStatus) (actor_type : String) (actor_id : Option Nat)
    (reason : Option String) : Except FsmError Db :=
  match db.orders order_id with
  | none => Except.error FsmError.OrderNotFound
  | some o =>
      if to_status ∈ VALID_TRANSITIONS o.status then
        let o2 : Order :=
          { o with
            status := to_status
            logistics_search_started_at :=
              if to_status = OrderStatus.LOGISTICS_SEARCH then some now
              else o.logistics_search_started_at
            settled_at :=
              if to_status = OrderStatus.SETTLED then some now
              else o.settled_at }
        let audit : AuditLog :=
          { order_id := o.id, from_status := o.status, to_status := to_status
            actor_type := actor_type, actor_id := actor_id, reason := reason }
        Except.ok
          { setOrderAt db order_id o2 with
            audit_logs := db.audit_logs ++ [audit] }
      else
        Except.error (FsmError.InvalidTransition o.status to_status)

/-- submit_bid (app/services/order_fsm.py): locks the order, rejects unless
its status is LISTED or NEGOTIATING, rejects a volume above
available_volume_kg with InsufficientVolume, inserts a PENDING bid, and on
LISTED performs the edge to NEGOTIATING with its audit row in the same
transaction.  available_volume_kg is not touched.  The fresh bid key the
database would generate is supplied by the caller. -/
def submit_bid (db : Db) (order_id buyer_id : Nat)
    (offered_price_per_kg volume_kg : Rat) (message : Option String)
    (new_bid_id : Nat) : Except FsmError (Db × Bid) :=
  match db.orders order_id with
  | none => Except.error FsmError.OrderNotFound
  | some o =>
      if o.status ≠ OrderStatus.LISTED ∧ o.status ≠ OrderStatus.NEGOTIATING then
        Except.error (FsmError.InvalidTransition o.status OrderStatus.NEGOTIATING)
      else if volume_kg > o.available_volume_kg then
        Except.error FsmError.InsufficientVolume
      else
        let bid : Bid :=
          { id := new_bid_id, order_id := order_id, buyer_id := buyer_id
            offered_price_per_kg := offered_price_per_kg
            volume_kg := volume_kg, status := BidStatus.PENDING
            message := message }
        if o.status = OrderStatus.LISTED then
          let o2 : Order := { o with status := OrderStatus.NEGOTIATING }
          let audit : AuditLog :=
            { order_id := o.id, from_status := o.status
              to_status := OrderStatus.NEGOTIATING, actor_type := "buyer"
              actor_id := some buyer_id, reason := some "first_bid_submitted" }
          Except.ok
            ({ setOrderAt db order_id o2 with
                bids := db.bids ++ [bid]
                audit_logs := db.audit_logs ++ [audit] }, bid)
        else
          Except.ok ({ db with bids := db.bids ++ [bid] }, bid)

/-- Lookup of the bid row locked by accept_bid. -/
def findBid (db : Db) (bid_id : Nat) : Option Bid :=
  db.bids.find? (fun b => decide (b.id = bid_id))

/-- Escrow principal created by accept_bid: the source computes
int(bid.volume_kg * bid.offered_price_per_kg * 100); on the schema-valid
(positive volume and price) domain that float truncation is the floor of
the product of volume, unit price per kg and 100. -/
def total_cents (volume_kg offered_price_per_kg : Rat) : Int :=
  Int.floor (volume_kg * offered_price_per_kg * 100)

/-- accept_bid (app/services/order_fsm.py): locks the bid and its order;
requires the calling farmer to own the order, the order NEGOTIATING, the
bid PENDING, and the bid volume at most available_volume_kg; then
decrements available_volume_kg by the bid volume, records buyer and price,
accepts this bid, rejects every other PENDING bid on the order, stores the
SHA-256 digests of the two fresh QR tokens, creates a WAITING_FUNDS escrow
over total_cents, performs NEGOTIATING to LOGISTICS_SEARCH with its audit
row, and returns the raw tokens once.  The hash function and the freshly
minted tokens are supplied by the caller. -/
def accept_bid (sha256Hex : String → String) (db : Db) (now : Nat)
    (farmer_id bid_id : Nat) (raw_pickup_token raw_delivery_token : String) :
    Except FsmError (Db × Escrow × String × String) :=
  match findBid db bid_id with
  | none => Except.error FsmError.BidNotFound
  | some bid =>
      match db.orders bid.order_id with
      | none => Except.error FsmError.OrderNotFound
      | some o =>
          if o.farmer_id ≠ farmer_id then
            Except.error FsmError.Unauthorized
          else if o.status ≠ OrderStatus.NEGOTIATING then
            Except.error
              (FsmError.InvalidTransition o.status OrderStatus.LOGISTICS_SEARCH)
          else if bid.status ≠ BidStatus.PENDING then
            Except.error
              (FsmError.InvalidBidTransition bid.status BidStatus.ACCEPTED)
          else if bid.volume_kg > o.available_volume_kg then
            Except.error FsmError.InsufficientVolume
          else
            let o2 : Order :=
              { o with
                available_volume_kg := o.available_volume_kg - bid.volume_kg
                buyer_id := some bid.buyer_id
                accepted_price := some bid.offered_price_per_kg
                pickup_qr_hash := some (sha256Hex raw_pickup_token)
                delivery_qr_hash := some (sha256Hex raw_delivery_token)
                status := OrderStatus.LOGISTICS_SEARCH
                logistics_search_started_at := some now }
            let bids2 := db.bids.map (fun b =>
              if b.id = bid_id then { b with status := BidStatus.ACCEPTED }
              else if b.order_id = o.id ∧ b.status = BidStatus.PENDING then
                { b with status := BidStatus.REJECTED }
              else b)
            let escrow :=
              mk_escrow (total_cents bid.volume_kg bid.offered_price_per_kg)
            let audit : AuditLog :=
              { order_id := o.id, from_status := o.status
                to_status := OrderStatus.LOGISTICS_SEARCH
                actor_type := "farmer", actor_id := some farmer_id
                reason := some "bid_accepted" }
            Except.ok
              ({ setOrderAt db bid.order_id o2 with
                  bids := bids2
                  escrows := db.escrows ++ [escrow]
                  audit_logs := db.audit_logs ++ [audit] },
                escrow, raw_pickup_token, raw_delivery_token)

/-- The accepted bid on an order, as rollback_to_listed queries it. -/
def findAcceptedBid (db : Db) (oid : Nat) : Option Bid :=
  db.bids.find? (fun b =>
    decide (b.order_id = oid ∧ b.status = BidStatus.ACCEPTED))

/-- rollback_to_listed (app/services/order_fsm.py): returns immediately
unless the order is LOGISTICS_SEARCH; otherwise, when a buyer is recorded
and an ACCEPTED bid exists, restores that bid volume to
available_volume_kg and rejects the bid; clears buyer_id, accepted_price,
both QR hashes and logistics_search_started_at; sets LISTED and appends an
audit row with the given reason. -/
def rollback_to_listed (db : Db) (o : Order) (reason : String) : Db :=
  if o.status ≠ OrderStatus.LOGISTICS_SEARCH then db
  else
    let restored : Rat × List Bid :=
      match o.buyer_id with
      | none => (o.available_volume_kg, db.bids)
      | some _ =>
          match findAcceptedBid db o.id with
          | none => (o.available_volume_kg, db.bids)
          | some ab =>
              (o.available_volume_kg + ab.volume_kg,
                db.bids.map (fun b =>
                  if b.id = ab.id then { b with status := BidStatus.REJECTED }
                  else b))
    let o2 : Order :=
      { o with
        status := OrderStatus.LISTED
        available_volume_kg := restored.1
        buyer_id := none
        accepted_price := none
        pickup_qr_hash := none
        delivery_qr_hash := none
        logistics_search_started_at := none }
    let audit : AuditLog :=
      { order_id := o.id, from_status := OrderStatus.LOGISTICS_SEARCH
        to_status := OrderStatus.LISTED, actor_type := "system"
        actor_id := none, reason := some reason }
    { setOrderAt db o.id o2 with
      bids := restored.2
      audit_logs := db.audit_logs ++ [audit] }

/-- A WGS-84 point (app/schemas/common.py GeoPoint), coordinates as exact
rationals. -/
structure GeoPoint where
  latitude : Rat
  longitude : Rat
deriving DecidableEq, Repr

/-- The buyer row (app/models/buyer.py), restricted to what the dispute
endpoint fetches: identity and the stored delivery location. -/
structure Buyer where
  id : Nat
  delivery_location : Option GeoPoint
deriving DecidableEq, Repr

/-- The logistics assignment row (app/models/logistics_assignment.py),
restricted to what the verification endpoints read or write. -/
structure LogisticsAssignment where
  id : Nat
  order_id : Nat
  middleman_id : Nat
  last_gps_ping_at : Option Nat
  gps_alert_sent : Bool
deriving DecidableEq, Repr

/-- The HTTP error outcomes of the verification router, by status code. -/
inductive ApiError
  | notFound
  | forbidden
  | conflict (detail : String)
  | badRequest (detail : String)
deriving DecidableEq, Repr

/-- verify_pickup (app/routers/verify.py): the caller must be the assigned
middleman, the order IN_TRANSIT and the escrow FUNDS_HELD; the SHA-256 of
the submitted token must equal the stored pickup hash, otherwise a 400 is
returned and, the transaction rolling back, nothing is released; on a match
the assignment heartbeat is stamped and release_pickup runs.  The hash
function is a parameter; the property holds for any choice. -/
def verify_pickup (sha256Hex : String → String) (now : Nat) (o : Order)
    (esc : Escrow) (asg : Option LogisticsAssignment) (middleman_id : Nat)
    (qr_token : String) :
    Except ApiError (LogisticsAssignment × Escrow) :=
  match asg with
  | none => Except.error ApiError.forbidden
  | some a =>
      if a.middleman_id ≠ middleman_id then
        Except.error ApiError.forbidden
      else if o.status ≠ OrderStatus.IN_TRANSIT then
        Except.error (ApiError.conflict "expected IN_TRANSIT")
      else if esc.status ≠ EscrowStatus.FUNDS_HELD then
        Except.error (ApiError.conflict "expected FUNDS_HELD")
      else if some (sha256Hex qr_token) ≠ o.pickup_qr_hash then
        Except.error (ApiError.badRequest "Invalid QR token")
      else
        match release_pickup now esc with
        | Except.ok e2 =>
            Except.ok ({ a with last_gps_ping_at := some now }, e2)
        | Except.error _ =>
            Except.error (ApiError.conflict "escrow release failed")

/-- check_middleman_at_buyer (app/services/spatial_service.py): computes the
great-circle distance between the two points, compares it with the
threshold, and hashes a deterministic rendering of the inputs and the
distance.  The haversine (float trigonometry) and the string rendering are
parameters of the embedding; every claim proved about it holds for any
choice of the two. -/
def check_middleman_at_buyer (haversine_m : GeoPoint → GeoPoint → Rat)
    (sha256Hex : String → String)
    (render : GeoPoint → GeoPoint → Rat → Rat → String)
    (middleman_location buyer_location : GeoPoint) (threshold_m : Rat) :
    Bool × Rat × String :=
  let distance_m := haversine_m middleman_location buyer_location
  let is_within := decide (distance_m ≤ threshold_m)
  let query_hash :=
    sha256Hex (render middleman_location buyer_location threshold_m distance_m)
  (is_within, round (distance_m * 100) / 100, query_hash)

/-- The demo fallback coordinate hard-coded in dispute_proof_of_location
(app/routers/verify.py): latitude 13.0827, longitude 80.2707. -/
def dispute_buyer_point : GeoPoint :=
  { latitude := 13.0827, longitude := 80.2707 }

/-- The extra_data payload the dispute endpoint writes to the audit log. -/
structure DisputeRecord where
  middleman_lat : Rat
  middleman_lon : Rat
  buyer_lat : Rat
  buyer_lon : Rat
  distance_m : Rat
  threshold_m : Rat
  within_threshold : Bool
  postgis_query_hash : String
deriving DecidableEq, Repr

/-- dispute_proof_of_location (app/routers/verify.py): requires the caller
to be the assigned middleman and the order IN_TRANSIT; fetches the buyer
row, then runs the proximity check against the hard-coded fallback point
with threshold 100 m and records the proof.  Returns the within flag, the
distance, the proof hash and the audit payload. -/
def dispute_proof_of_location (haversine_m : GeoPoint → GeoPoint → Rat)
    (sha256Hex : String → String)
    (render : GeoPoint → GeoPoint → Rat → Rat → String) (o : Order)
    (asg : Option LogisticsAssignment) (middleman_id : Nat)
    (middleman_location : GeoPoint) (buyer : Option Buyer) :
    Except ApiError (Bool × Rat × String × DisputeRecord) :=
  match asg with
  | none => Except.error ApiError.forbidden
  | some a =>
      if a.middleman_id ≠ middleman_id then
        Except.error ApiError.forbidden
      else if o.status ≠ OrderStatus.IN_TRANSIT then
        Except.error (ApiError.conflict "order not IN_TRANSIT")
      else
        let buyer_loc := dispute_buyer_point
        let r :=
          check_middleman_at_buyer haversine_m sha256Hex render
            middleman_location buyer_loc 100
        Except.ok
          (r.1, r.2.1, r.2.2,
            { middleman_lat := middleman_location.latitude
              middleman_lon := middleman_location.longitude
              buyer_lat := buyer_loc.latitude
              buyer_lon := buyer_loc.longitude
              distance_m := r.2.1
              threshold_m := 100
              within_threshold := r.1
              postgis_query_hash := r.2.2 })

/-- The declared parameters of find_middlemen_near_route
(app/services/spatial_service.py): a session, the two endpoints of the
route and the buffer width.  There is no cold-chain parameter. -/
def find_middlemen_near_route_params : List String :=
  ["db", "farmer_location", "buyer_location", "buffer_km"]

/-- The keyword arguments passed by search_nearby_middlemen
(app/routers/logistics.py) beyond its three positional arguments. -/
def search_endpoint_keyword_args : List String :=
  ["requires_cold_chain"]

/-- Python keyword binding: a call is accepted only when every keyword names
a declared parameter; an unknown keyword raises TypeError. -/
def keywords_accepted (params kwargs : List String) : Bool :=
  kwargs.all (fun k => params.contains k)

/-- One middlemen-table row as seen by the WHERE clause of the PostGIS query
in find_middlemen_near_route; whether the stored location falls inside the
buffered route is precomputed per row. -/
structure MiddlemanRow where
  is_available : Bool
  has_current_location : Bool
  truck_type : TruckType
  within_route_buffer : Bool
deriving DecidableEq, Repr

/-- The WHERE clause of the query in find_middlemen_near_route: available,
location present, within the buffer.  No condition mentions truck_type. -/
def route_query_selects (m : MiddlemanRow) : Bool :=
  m.is_available && m.has_current_location && m.within_route_buffer

/-- One marketplace operation on the bid lifecycle; the fresh identifiers,
instants and tokens an operation needs are carried in the operation. -/
inductive MarketOp
  | submit (order_id buyer_id : Nat) (offered_price_per_kg volume_kg : Rat)
      (message : Option String) (new_bid_id : Nat)
  | accept (now farmer_id bid_id : Nat)
      (raw_pickup_token raw_delivery_token : String)

/-- Apply one marketplace operation; a typed error rolls the transaction
back and leaves the database unchanged. -/
def runMarketOp (sha256Hex : String → String) (db : Db) : MarketOp → Db
  | MarketOp.submit oid buyer p v msg nid =>
      match submit_bid db oid buyer p v msg nid with
      | Except.ok r => r.1
      | Except.error _ => db
  | MarketOp.accept now fid bid_id rp rd =>
      match accept_bid sha256Hex db now fid bid_id rp rd with
      | Except.ok r => r.1
      | Except.error _ => db

/-- Apply a sequence of marketplace operations in order. -/
def runMarketOps (sha256Hex : String → String) (db : Db)
    (ops : List MarketOp) : Db :=
  ops.foldl (runMarketOp sha256Hex) db

/-- Schema validity (BidCreate in app/schemas/bid.py): submitted prices and
volumes carry Field(gt=0). -/
def MarketOp.schemaValid : MarketOp → Prop
  | MarketOp.submit _ _ p v _ _ => 0 < p ∧ 0 < v
  | MarketOp.accept _ _ _ _ _ => True

/-- The volume slice of the data-model invariant, strengthened by the bid
table fact that makes it inductive: every stored bid has positive volume. -/
def dbVolumesOk (db : Db) : Prop :=
  (∀ i o, db.orders i = some o →
      0 ≤ o.available_volume_kg ∧
        o.available_volume_kg ≤ o.total_volume_kg) ∧
    ∀ b ∈ db.bids, 0 < b.volume_kg

theorem transition_order_ok (db : Db) (now order_id : Nat)
    (to_status : OrderStatus) (actor_type : String) (actor_id : Option Nat)
    (reason : Option String) (o : Order) (h : db.orders order_id = some o)
    (hmem : to_status ∈ VALID_TRANSITIONS o.status) :
    transition_order db now order_id to_status actor_type actor_id reason =
      Except.ok
        { setOrderAt db order_id
            { o with
              status := to_status
              logistics_search_started_at :=
                if to_status = OrderStatus.LOGISTICS_SEARCH then some now
                else o.logistics_search_started_at
              settled_at :=
                if to_status = OrderStatus.SETTLED then some now
                else o.settled_at } with
          audit_logs := db.audit_logs ++
            [{ order_id := o.id, from_status := o.status
               to_status := to_status, actor_type := actor_type
               actor_id := actor_id, reason := reason }] } := by
  simp [transition_order, h, hmem]

/-- C2: transition_order fails with OrderNotFound when the order row is
absent; fails with InvalidTransition when the requested edge is not in the
transition table, returning an error so the enclosing transaction rolls
back with the order and the audit log untouched; the code table
VALID_TRANSITIONS contains exactly the edges of the section 4.1 table; and
on a permitted edge it sets the new status, stamps
logistics_search_started_at on entering LOGISTICS_SEARCH and settled_at on
entering SETTLED, leaves every other order and the bid table alone, and
appends exactly one audit row. -/
theorem transition_order_contract (db : Db) (now order_id : Nat)
    (to_status : OrderStatus) (actor_type : String) (actor_id : Option Nat)
    (reason : Option String) :
    (∀ s t, t ∈ VALID_TRANSITIONS s ↔ (s, t) ∈ specTransitionTable) ∧
      (db.orders order_id = none →
        transition_order db now order_id to_status actor_type actor_id
            reason =
          Except.error FsmError.OrderNotFound) ∧
      (∀ o, db.orders order_id = some o →
        to_status ∉ VALID_TRANSITIONS o.status →
        transition_order db now order_id to_status actor_type actor_id
            reason =
          Except.error (FsmError.InvalidTransition o.status to_status)) ∧
      ∀ o, db.orders order_id = some o →
        to_status ∈ VALID_TRANSITIONS o.status →
        ∃ db2,
          transition_order db now order_id to_status actor_type actor_id
              reason =
            Except.ok db2 ∧
          (∃ o2, db2.orders order_id = some o2 ∧
            o2.status = to_status ∧
            o2.logistics_search_started_at =
              (if to_status = OrderStatus.LOGISTICS_SEARCH then some now
               else o.logistics_search_started_at) ∧
            o2.settled_at =
              (if to_status = OrderStatus.SETTLED then some now
               else o.settled_at) ∧
            o2.available_volume_kg = o.available_volume_kg) ∧
          (∀ j, j ≠ order_id → db2.orders j = db.orders j) ∧
          db2.bids = db.bids ∧
          db2.audit_logs = db.audit_logs ++
            [{ order_id := o.id, from_status := o.status
               to_status := to_status, actor_type := actor_type
               actor_id := actor_id, reason := reason }] := by
  refine ⟨?_, ?_, ?_, ?_⟩
  · intro s t
    cases s <;> cases t <;> simp [VALID_TRANSITIONS, specTransitionTable]
  · intro h
    simp [transition_order, h]
  · intro o h hnot
    simp [transition_order, h, hnot]
  · intro o h hmem
    refine ⟨_, transition_order_ok db now order_id to_status actor_type
      actor_id reason o h hmem,
      ⟨{ o with
          status := to_status
          logistics_search_started_at :=
            if to_status = OrderStatus.LOGISTICS_SEARCH then some now
            else o.logistics_search_started_at
          settled_at :=
            if to_status = OrderStatus.SETTLED then some now
            else o.settled_at },
        by simp [setOrderAt], rfl, rfl, rfl, rfl⟩, ?_, rfl, rfl⟩
    · intro j hj
      simp [setOrderAt, hj]

/-- An order in NEGOTIATING used to exercise the FSM theorems. -/
def order_neg : Order :=
  { id := 1, farmer_id := 7, buyer_id := none, total_volume_kg := 100
    available_volume_kg := 100, unit_price_asking := 4/5
    accepted_price := none, status := OrderStatus.NEGOTIATING
    requires_cold_chain := false, logistics_search_started_at := none
    pickup_qr_hash := none, delivery_qr_hash := none, settled_at := none }

/-- A one-order database holding order_neg at key 1. -/
def db_neg : Db :=
  { orders := fun i => if i = 1 then some order_neg else none
    bids := [], escrows := [], audit_logs := [] }

/-- C2 witness: the permitted NEGOTIATING to LOGISTICS_SEARCH edge taken on
a concrete one-order database. -/
theorem transition_order_contract_witness :
    ∃ db2,
      transition_order db_neg 5 1 OrderStatus.LOGISTICS_SEARCH "farmer"
          (some 7) none =
        Except.ok db2 ∧
      (∃ o2, db2.orders 1 = some o2 ∧
        o2.status = OrderStatus.LOGISTICS_SEARCH ∧
        o2.logistics_search_started_at =
          (if OrderStatus.LOGISTICS_SEARCH = OrderStatus.LOGISTICS_SEARCH
           then some 5 else order_neg.logistics_search_started_at) ∧
        o2.settled_at =
          (if OrderStatus.LOGISTICS_SEARCH = OrderStatus.SETTLED then some 5
           else order_neg.settled_at) ∧
        o2.available_volume_kg = order_neg.available_volume_kg) ∧
      (∀ j, j ≠ 1 → db2.orders j = db_neg.orders j) ∧
      db2.bids = db_neg.bids ∧
      db2.audit_logs = db_neg.audit_logs ++
        [{ order_id := order_neg.id, from_status := order_neg.status
           to_status := OrderStatus.LOGISTICS_SEARCH, actor_type := "farmer"
           actor_id := some 7, reason := none }] :=
  (transition_order_contract db_neg 5 1 OrderStatus.LOGISTICS_SEARCH "farmer"
      (some 7) none).2.2.2 order_neg rfl (by decide)

/-- C8: handle_payment_succeeded is idempotent on the escrow row: a second
application is the identity; whenever the escrow is not WAITING_FUNDS the
call returns with the row untouched, and from WAITING_FUNDS it sets
FUNDS_HELD and stamps funds_held_at with the instant of the call. -/
theorem handle_payment_succeeded_contract (e : Escrow) (t t2 : Nat) :
    handle_payment_succeeded t2 (handle_payment_succeeded t e) =
        handle_payment_succeeded t e ∧
      (e.status ≠ EscrowStatus.WAITING_FUNDS →
        handle_payment_succeeded t e = e) ∧
      (e.status = EscrowStatus.WAITING_FUNDS →
        (handle_payment_succeeded t e).status = EscrowStatus.FUNDS_HELD ∧
          (handle_payment_succeeded t e).funds_held_at = some t ∧
          (handle_payment_succeeded t e).farmer_released_cents =
            e.farmer_released_cents ∧
          (handle_payment_succeeded t e).middleman_released_cents =
            e.middleman_released_cents ∧
          (handle_payment_succeeded t e).refunded_cents = e.refunded_cents ∧
          (handle_payment_succeeded t e).total_amount_cents =
            e.total_amount_cents) := by
  rcases e with ⟨tot, f, m, r, st, i, u1, u2, u3, u4⟩
  rcases st <;> simp [handle_payment_succeeded]

/-- C8 witness: the webhook applied twice on a fresh 3000-cent escrow. -/
theorem handle_payment_succeeded_contract_witness :
    handle_payment_succeeded 9 (handle_payment_succeeded 4 (mk_escrow 3000)) =
        handle_payment_succeeded 4 (mk_escrow 3000) ∧
      (mk_escrow 3000).status = EscrowStatus.WAITING_FUNDS ∧
      (handle_payment_succeeded 4 (mk_escrow 3000)).status =
        EscrowStatus.FUNDS_HELD :=
  ⟨(handle_payment_succeeded_contract (mk_escrow 3000) 4 9).1, rfl,
    ((handle_payment_succeeded_contract (mk_escrow 3000) 4 9).2.2 rfl).1⟩

/-- C7: on an order in LOGISTICS_SEARCH with a recorded buyer and an
ACCEPTED bid, rollback_to_listed restores that bid volume to
available_volume_kg, rejects the bid, clears buyer_id, accepted_price,
both QR hashes and logistics_search_started_at, sets LISTED and appends an
audit row with the given reason; on any other status it returns the
database unchanged, so a second application (to the row the first one
wrote) is the identity. -/
theorem rollback_to_listed_contract (db : Db) (o : Order) (reason : String) :
    (o.status ≠ OrderStatus.LOGISTICS_SEARCH →
        rollback_to_listed db o reason = db) ∧
      (o.status = OrderStatus.LOGISTICS_SEARCH →
        ∀ buyer, o.buyer_id = some buyer →
          ∀ ab, findAcceptedBid db o.id = some ab →
            ∃ o2, (rollback_to_listed db o reason).orders o.id = some o2 ∧
              o2.available_volume_kg =
                o.available_volume_kg + ab.volume_kg ∧
              o2.status = OrderStatus.LISTED ∧
              o2.buyer_id = none ∧
              o2.accepted_price = none ∧
              o2.pickup_qr_hash = none ∧
              o2.delivery_qr_hash = none ∧
              o2.logistics_search_started_at = none ∧
              (rollback_to_listed db o reason).bids =
                db.bids.map (fun b =>
                  if b.id = ab.id then { b with status := BidStatus.REJECTED }
                  else b) ∧
              (rollback_to_listed db o reason).audit_logs =
                db.audit_logs ++
                  [{ order_id := o.id
                     from_status := OrderStatus.LOGISTICS_SEARCH
                     to_status := OrderStatus.LISTED
                     actor_type := "system", actor_id := none
                     reason := some reason }] ∧
              rollback_to_listed (rollback_to_listed db o reason) o2 reason =
                rollback_to_listed db o reason) := by
  constructor
  · intro hne
    simp [rollback_to_listed, hne]
  · intro hs buyer hb ab hab
    have hrun : rollback_to_listed db o reason =
        { setOrderAt db o.id
            { o with
              status := OrderStatus.LISTED
              available_volume_kg := o.available_volume_kg + ab.volume_kg
              buyer_id := none
              accepted_price := none
              pickup_qr_hash := none
              delivery_qr_hash := none
              logistics_search_started_at := none } with
          bids := db.bids.map (fun b =>
            if b.id = ab.id then { b with status := BidStatus.REJECTED }
            else b)
          audit_logs := db.audit_logs ++
            [{ order_id := o.id
               from_status := OrderStatus.LOGISTICS_SEARCH
               to_status := OrderStatus.LISTED
               actor_type := "system", actor_id := none
               reason := some reason }] } := by
      simp [rollback_to_listed, hs, hb, hab]
    refine ⟨{ o with
        status := OrderStatus.LISTED
        available_volume_kg := o.available_volume_kg + ab.volume_kg
        buyer_id := none
        accepted_price := none
        pickup_qr_hash := none
        delivery_qr_hash := none
        logistics_search_started_at := none },
      ?_, rfl, rfl, rfl, rfl, rfl, rfl, rfl, ?_, ?_, ?_⟩
    · rw [hrun]
      simp [setOrderAt]
    · rw [hrun]
    · rw [hrun]
    · rw [hrun]
      simp [rollback_to_listed]

/-- An order stuck in LOGISTICS_SEARCH with buyer 3 recorded, 40 kg of its
100 kg committed to the accepted bid. -/
def order_ls : Order :=
  { id := 1, farmer_id := 7, buyer_id := some 3, total_volume_kg := 100
    available_volume_kg := 60, unit_price_asking := 4/5
    accepted_price := some (3/4), status := OrderStatus.LOGISTICS_SEARCH
    requires_cold_chain := false, logistics_search_started_at := some 5
    pickup_qr_hash := some "ph", delivery_qr_hash := some "dh"
    settled_at := none }

/-- The ACCEPTED 40 kg bid behind order_ls. -/
def bid_acc : Bid :=
  { id := 2, order_id := 1, buyer_id := 3, offered_price_per_kg := 3/4
    volume_kg := 40, status := BidStatus.ACCEPTED, message := none }

/-- The database holding order_ls and its accepted bid. -/
def db_ls : Db :=
  { orders := fun i => if i = 1 then some order_ls else none
    bids := [bid_acc], escrows := [], audit_logs := [] }

/-- C7 witness: the 48-hour rollback applied to the concrete stuck order. -/
theorem rollback_to_listed_contract_witness :
    ∃ o2, (rollback_to_listed db_ls order_ls "48hr_timeout").orders
          order_ls.id =
        some o2 ∧
      o2.available_volume_kg =
        order_ls.available_volume_kg + bid_acc.volume_kg ∧
      o2.status = OrderStatus.LISTED ∧
      o2.buyer_id = none ∧
      o2.accepted_price = none ∧
      o2.pickup_qr_hash = none ∧
      o2.delivery_qr_hash = none ∧
      o2.logistics_search_started_at = none ∧
      (rollback_to_listed db_ls order_ls "48hr_timeout").bids =
        db_ls.bids.map (fun b =>
          if b.id = bid_acc.id then { b with status := BidStatus.REJECTED }
          else b) ∧
      (rollback_to_listed db_ls order_ls "48hr_timeout").audit_logs =
        db_ls.audit_logs ++
          [{ order_id := order_ls.id
             from_status := OrderStatus.LOGISTICS_SEARCH
             to_status := OrderStatus.LISTED
             actor_type := "system", actor_id := none
             reason := some "48hr_timeout" }] ∧
      rollback_to_listed (rollback_to_listed db_ls order_ls "48hr_timeout")
          o2 "48hr_timeout" =
        rollback_to_listed db_ls order_ls "48hr_timeout" :=
  (rollback_to_listed_contract db_ls order_ls "48hr_timeout").2 rfl 3 rfl
    bid_acc rfl

theorem accept_bid_ok (sha : String → String) (db : Db) (now fid bid_id : Nat)
    (rp rd : String) (bid : Bid) (o : Order)
    (hfind : findBid db bid_id = some bid)
    (horder : db.orders bid.order_id = some o)
    (hown : o.farmer_id = fid)
    (hst : o.status = OrderStatus.NEGOTIATING)
    (hbs : bid.status = BidStatus.PENDING)
    (hvol : bid.volume_kg ≤ o.available_volume_kg) :
    accept_bid sha db now fid bid_id rp rd =
      Except.ok
        ({ setOrderAt db bid.order_id
              { o with
                available_volume_kg := o.available_volume_kg - bid.volume_kg
                buyer_id := some bid.buyer_id
                accepted_price := some bid.offered_price_per_kg
                pickup_qr_hash := some (sha rp)
                delivery_qr_hash := some (sha rd)
                status := OrderStatus.LOGISTICS_SEARCH
                logistics_search_started_at := some now } with
            bids := db.bids.map (fun b =>
              if b.id = bid_id then { b with status := BidStatus.ACCEPTED }
              else if b.order_id = o.id ∧ b.status = BidStatus.PENDING then
                { b with status := BidStatus.REJECTED }
              else b)
            escrows := db.escrows ++
              [mk_escrow (total_cents bid.volume_kg bid.offered_price_per_kg)]
            audit_logs := db.audit_logs ++
              [{ order_id := o.id, from_status := OrderStatus.NEGOTIATING
                 to_status := OrderStatus.LOGISTICS_SEARCH
                 actor_type := "farmer", actor_id := some fid
                 reason := some "bid_accepted" }] },
          mk_escrow (total_cents bid.volume_kg bid.offered_price_per_kg),
          rp, rd) := by
  have hnot : ¬ (bid.volume_kg > o.available_volume_kg) := not_lt.mpr hvol
  simp [accept_bid, hfind, horder, hown, hst, hbs, hnot]

/-- C5 (amended): every successful accept_bid creates its escrow with
total_amount_cents equal to the truncation (for schema-valid positive
inputs, the floor) of volume_kg times the offered price per kg times 100 —
the source casts the product with int(), which truncates rather than
rounds — and with initial status WAITING_FUNDS; the row is appended to the
escrow table. -/
theorem accept_bid_escrow_contract (sha : String → String) (db : Db)
    (now fid bid_id : Nat) (rp rd : String) (bid : Bid) (o : Order)
    (hfind : findBid db bid_id = some bid)
    (horder : db.orders bid.order_id = some o)
    (hown : o.farmer_id = fid)
    (hst : o.status = OrderStatus.NEGOTIATING)
    (hbs : bid.status = BidStatus.PENDING)
    (hvol : bid.volume_kg ≤ o.available_volume_kg) :
    ∃ db2 esc, accept_bid sha db now fid bid_id rp rd =
        Except.ok (db2, esc, rp, rd) ∧
      esc.total_amount_cents =
        Int.floor (bid.volume_kg * bid.offered_price_per_kg * 100) ∧
      esc.status = EscrowStatus.WAITING_FUNDS ∧
      db2.escrows = db.escrows ++ [esc] :=
  ⟨_, _, accept_bid_ok sha db now fid bid_id rp rd bid o hfind horder hown
      hst hbs hvol, rfl, rfl, rfl⟩

/-- An order in NEGOTIATING whose accepted bid produces a half-cent
product: 1.5 kg at 0.77 per kg is exactly 115.5 cents. -/
def order_c5 : Order :=
  { id := 1, farmer_id := 7, buyer_id := none, total_volume_kg := 10
    available_volume_kg := 10, unit_price_asking := 1
    accepted_price := none, status := OrderStatus.NEGOTIATING
    requires_cold_chain := false, logistics_search_started_at := none
    pickup_qr_hash := none, delivery_qr_hash := none, settled_at := none }

/-- The pending 1.5-kg bid at 0.77 per kg. -/
def bid_c5 : Bid :=
  { id := 2, order_id := 1, buyer_id := 3, offered_price_per_kg := 77/100
    volume_kg := 3/2, status := BidStatus.PENDING, message := none }

/-- The database holding order_c5 and bid_c5. -/
def db_c5 : Db :=
  { orders := fun i => if i = 1 then some order_c5 else none
    bids := [bid_c5], escrows := [], audit_logs := [] }

/-- C5 counterexample: accepting the 1.5 kg at 0.77 bid succeeds and stores
total_amount_cents = 115, the truncation of the exact product 115.5,
whereas round(volume_kg times price times 100) = 116: the claimed rounding
does not describe the code. -/
theorem accept_bid_round_counterexample :
    (accept_bid (fun s => s) db_c5 0 7 2 "rp" "rd").toOption.map
        (fun r => r.2.1.total_amount_cents) =
      some 115 ∧
    round (((3 : Rat)/2) * (77/100) * 100) = (116 : Int) ∧
    (115 : Int) ≠ 116 := by
  refine ⟨?_, ?_, by decide⟩
  · rw [accept_bid_ok (fun s => s) db_c5 0 7 2 "rp" "rd" bid_c5 order_c5 rfl
      rfl rfl rfl rfl (by norm_num [bid_c5, order_c5])]
    show some (total_cents bid_c5.volume_kg bid_c5.offered_price_per_kg) =
      some 115
    norm_num [total_cents, bid_c5]
  · norm_num [round_eq]

/-- C6: from FUNDS_HELD, release_pickup increments farmer_released_cents by
exactly the floor of 20 percent of the principal and moves to PICKED_UP;
from the resulting state release_delivery increments farmer_released_cents
by the floor of 60 percent and middleman_released_cents by the floor of
20 percent and moves to DELIVERED; the three tranches are floor divisions
on integer cents and leave a residue of at most 2 cents in escrow. -/
theorem release_tranche_contract (e : Escrow) (t1 t2 : Nat)
    (hs : e.status = EscrowStatus.FUNDS_HELD)
    (h0 : 0 ≤ e.total_amount_cents) :
    ∃ e1 e2,
      release_pickup t1 e = Except.ok e1 ∧
      e1.farmer_released_cents =
        e.farmer_released_cents + farmer_pickup_cents e.total_amount_cents ∧
      e1.middleman_released_cents = e.middleman_released_cents ∧
      e1.status = EscrowStatus.PICKED_UP ∧
      release_delivery t2 e1 = Except.ok e2 ∧
      e2.farmer_released_cents =
        e1.farmer_released_cents + farmer_final_cents e.total_amount_cents ∧
      e2.middleman_released_cents =
        e1.middleman_released_cents + middleman_cents e.total_amount_cents ∧
      e2.status = EscrowStatus.DELIVERED ∧
      farmer_pickup_cents e.total_amount_cents =
        ⌊((e.total_amount_cents : Rat) * 0.20)⌋ ∧
      farmer_final_cents e.total_amount_cents =
        ⌊((e.total_amount_cents : Rat) * 0.60)⌋ ∧
      middleman_cents e.total_amount_cents =
        ⌊((e.total_amount_cents : Rat) * 0.20)⌋ ∧
      0 ≤ e.total_amount_cents -
          (farmer_pickup_cents e.total_amount_cents +
            farmer_final_cents e.total_amount_cents +
            middleman_cents e.total_amount_cents) ∧
      e.total_amount_cents -
          (farmer_pickup_cents e.total_amount_cents +
            farmer_final_cents e.total_amount_cents +
            middleman_cents e.total_amount_cents) ≤ 2 := by
  refine ⟨{ e with
      farmer_released_cents :=
        e.farmer_released_cents + farmer_pickup_cents e.total_amount_cents
      status := EscrowStatus.PICKED_UP
      picked_up_at := some t1 },
    { e with
      farmer_released_cents :=
        e.farmer_released_cents + farmer_pickup_cents e.total_amount_cents +
          farmer_final_cents e.total_amount_cents
      middleman_released_cents :=
        e.middleman_released_cents + middleman_cents e.total_amount_cents
      status := EscrowStatus.DELIVERED
      picked_up_at := some t1
      delivered_at := some t2 },
    ?_, rfl, rfl, rfl, ?_, rfl, rfl, rfl, ?_, ?_, ?_, ?_, ?_⟩
  · simp [release_pickup, hs]
  · simp [release_delivery]
  · have h : ((e.total_amount_cents : Rat) * 0.20) =
        ((e.total_amount_cents * 20 : Int) : Rat) / ((100 : Nat) : Rat) := by
      push_cast; ring_nf
    rw [h, Rat.floor_intCast_div_natCast]
    norm_num [farmer_pickup_cents]
  · have h : ((e.total_amount_cents : Rat) * 0.60) =
        ((e.total_amount_cents * 60 : Int) : Rat) / ((100 : Nat) : Rat) := by
      push_cast; ring_nf
    rw [h, Rat.floor_intCast_div_natCast]
    norm_num [farmer_final_cents]
  · have h : ((e.total_amount_cents : Rat) * 0.20) =
        ((e.total_amount_cents * 20 : Int) : Rat) / ((100 : Nat) : Rat) := by
      push_cast; ring_nf
    rw [h, Rat.floor_intCast_div_natCast]
    norm_num [middleman_cents]
  · simp only [farmer_pickup_cents, farmer_final_cents, middleman_cents]
    omega
  · simp only [farmer_pickup_cents, farmer_final_cents, middleman_cents]
    omega

/-- C6 witness: the tranches of a 3000-cent escrow whose funds are held:
600 + 1800 + 600, residue 0. -/
theorem release_tranche_contract_witness :
    (handle_payment_succeeded 0 (mk_escrow 3000)).status =
        EscrowStatus.FUNDS_HELD ∧
      (0 : Int) ≤ (handle_payment_succeeded 0 (mk_escrow 3000)).total_amount_cents ∧
      ∃ e1 e2,
        release_pickup 1 (handle_payment_succeeded 0 (mk_escrow 3000)) =
          Except.ok e1 ∧
        e1.farmer_released_cents =
          (handle_payment_succeeded 0 (mk_escrow 3000)).farmer_released_cents +
            farmer_pickup_cents
              (handle_payment_succeeded 0 (mk_escrow 3000)).total_amount_cents ∧
        e1.middleman_released_cents =
          (handle_payment_succeeded 0 (mk_escrow 3000)).middleman_released_cents ∧
        e1.status = EscrowStatus.PICKED_UP ∧
        release_delivery 2 e1 = Except.ok e2 ∧
        e2.farmer_released_cents =
          e1.farmer_released_cents +
            farmer_final_cents
              (handle_payment_succeeded 0 (mk_escrow 3000)).total_amount_cents ∧
        e2.middleman_released_cents =
          e1.middleman_released_cents +
            middleman_cents
              (handle_payment_succeeded 0 (mk_escrow 3000)).total_amount_cents ∧
        e2.status = EscrowStatus.DELIVERED ∧
        farmer_pickup_cents
            (handle_payment_succeeded 0 (mk_escrow 3000)).total_amount_cents =
          ⌊(((handle_payment_succeeded 0 (mk_escrow 3000)).total_amount_cents :
              Rat) * 0.20)⌋ ∧
        farmer_final_cents
            (handle_payment_succeeded 0 (mk_escrow 3000)).total_amount_cents =
          ⌊(((handle_payment_succeeded 0 (mk_escrow 3000)).total_amount_cents :
              Rat) * 0.60)⌋ ∧
        middleman_cents
            (handle_payment_succeeded 0 (mk_escrow 3000)).total_amount_cents =
          ⌊(((handle_payment_succeeded 0 (mk_escrow 3000)).total_amount_cents :
              Rat) * 0.20)⌋ ∧
        (0 : Int) ≤
          (handle_payment_succeeded 0 (mk_escrow 3000)).total_amount_cents -
            (farmer_pickup_cents
                (handle_payment_succeeded 0 (mk_escrow 3000)).total_amount_cents +
              farmer_final_cents
                (handle_payment_succeeded 0 (mk_escrow 3000)).total_amount_cents +
              middleman_cents
                (handle_payment_succeeded 0 (mk_escrow 3000)).total_amount_cents) ∧
        (handle_payment_succeeded 0 (mk_escrow 3000)).total_amount_cents -
            (farmer_pickup_cents
                (handle_payment_succeeded 0 (mk_escrow 3000)).total_amount_cents +
              farmer_final_cents
                (handle_payment_succeeded 0 (mk_escrow 3000)).total_amount_cents +
              middleman_cents
                (handle_payment_succeeded 0 (mk_escrow 3000)).total_amount_cents) ≤
          2 :=
  ⟨rfl, by decide,
    release_tranche_contract (handle_payment_succeeded 0 (mk_escrow 3000)) 1 2
      rfl (by decide)⟩

/-- C9: every successful accept_bid returns the two raw tokens it was
minted with and stores exactly their digests on the order; pickup
verification (with the assignment, order and escrow preconditions met)
accepts a submitted token precisely when its digest equals the stored
pickup hash — then the pickup tranche is released — and any mismatch is
answered with a 400 error, the transaction rolling back, so no funds move.
The digest function is a parameter; the property holds for any choice. -/
theorem qr_token_contract (sha : String → String) :
    (∀ db now fid bid_id rp rd db2 esc rp2 rd2 (bid : Bid) (o : Order),
      findBid db bid_id = some bid →
      db.orders bid.order_id = some o →
      o.farmer_id = fid →
      o.status = OrderStatus.NEGOTIATING →
      bid.status = BidStatus.PENDING →
      bid.volume_kg ≤ o.available_volume_kg →
      accept_bid sha db now fid bid_id rp rd = Except.ok (db2, esc, rp2, rd2) →
      rp2 = rp ∧ rd2 = rd ∧
        ∃ o2, db2.orders bid.order_id = some o2 ∧
          o2.pickup_qr_hash = some (sha rp2) ∧
          o2.delivery_qr_hash = some (sha rd2)) ∧
      ∀ now (o : Order) (esc : Escrow) (a : LogisticsAssignment) mid tok,
        a.middleman_id = mid →
        o.status = OrderStatus.IN_TRANSIT →
        esc.status = EscrowStatus.FUNDS_HELD →
        (o.pickup_qr_hash = some (sha tok) →
          verify_pickup sha now o esc (some a) mid tok =
            Except.ok
              ({ a with last_gps_ping_at := some now },
                { esc with
                  farmer_released_cents :=
                    esc.farmer_released_cents +
                      farmer_pickup_cents esc.total_amount_cents
                  status := EscrowStatus.PICKED_UP
                  picked_up_at := some now })) ∧
        (o.pickup_qr_hash ≠ some (sha tok) →
          verify_pickup sha now o esc (some a) mid tok =
            Except.error (ApiError.badRequest "Invalid QR token")) := by
  constructor
  · intro db now fid bid_id rp rd db2 esc rp2 rd2 bid o hfind horder hown hst
      hbs hvol hacc
    rw [accept_bid_ok sha db now fid bid_id rp rd bid o hfind horder hown hst
      hbs hvol] at hacc
    simp only [Except.ok.injEq, Prod.mk.injEq] at hacc
    obtain ⟨hdb2, hesc, hrp, hrd⟩ := hacc
    subst hdb2 hrp hrd
    refine ⟨rfl, rfl,
      ⟨{ o with
          available_volume_kg := o.available_volume_kg - bid.volume_kg
          buyer_id := some bid.buyer_id
          accepted_price := some bid.offered_price_per_kg
          pickup_qr_hash := some (sha rp)
          delivery_qr_hash := some (sha rd)
          status := OrderStatus.LOGISTICS_SEARCH
          logistics_search_started_at := some now }, ?_, rfl, rfl⟩⟩
    simp [setOrderAt]
  · intro now o esc a mid tok hmid hst hesc
    constructor
    · intro hmatch
      simp [verify_pickup, hmid, hst, hesc, hmatch, release_pickup]
    · intro hne
      have hne2 : some (sha tok) ≠ o.pickup_qr_hash := fun h => hne h.symm
      simp [verify_pickup, hmid, hst, hesc, hne2]

/-- The assignment binding middleman 9 to order 1. -/
def asg_demo : LogisticsAssignment :=
  { id := 4, order_id := 1, middleman_id := 9, last_gps_ping_at := some 5
    gps_alert_sent := false }

/-- An order IN_TRANSIT carrying a stored pickup hash. -/
def order_it : Order :=
  { id := 1, farmer_id := 7, buyer_id := some 3, total_volume_kg := 100
    available_volume_kg := 60, unit_price_asking := 1
    accepted_price := some 1, status := OrderStatus.IN_TRANSIT
    requires_cold_chain := false, logistics_search_started_at := some 5
    pickup_qr_hash := some "hash_tok", delivery_qr_hash := some "hash_d"
    settled_at := none }

/-- C9 witness: with the digest function that prefixes the string
hash_underscore, the stored hash of the token tok matches and pickup
verification succeeds on the concrete IN_TRANSIT order. -/
theorem qr_token_contract_witness :
    asg_demo.middleman_id = 9 ∧
      order_it.status = OrderStatus.IN_TRANSIT ∧
      (handle_payment_succeeded 0 (mk_escrow 3000)).status =
        EscrowStatus.FUNDS_HELD ∧
      order_it.pickup_qr_hash = some ((fun s => "hash_" ++ s) "tok") ∧
      verify_pickup (fun s => "hash_" ++ s) 6 order_it
          (handle_payment_succeeded 0 (mk_escrow 3000)) (some asg_demo) 9
          "tok" =
        Except.ok
          ({ asg_demo with last_gps_ping_at := some 6 },
            { handle_payment_succeeded 0 (mk_escrow 3000) with
              farmer_released_cents :=
                (handle_payment_succeeded 0
                    (mk_escrow 3000)).farmer_released_cents +
                  farmer_pickup_cents
                    (handle_payment_succeeded 0

      (mk_escrow 3000)).total_amount_cents
              status := EscrowStatus.PICKED_UP
              picked_up_at := some 6 }) :=
  ⟨rfl, rfl, rfl, rfl,
    (((qr_token_contract (fun s => "hash_" ++ s)).2 6 order_it
        (handle_payment_succeeded 0 (mk_escrow 3000)) asg_demo 9 "tok" rfl rfl
        rfl).1) rfl⟩

/-- C10: the dispute endpoint ignores the buyer row it fetches — two calls
with the same middleman location return identical results for any two
buyers — and both the proximity check and the recorded proof use the
hard-coded buyer point (13.0827, 80.2707) with threshold 100 m: the
within flag is exactly the comparison of the computed distance against
100 m at that constant point. -/
theorem dispute_constant_buyer_contract
    (haversine_m : GeoPoint → GeoPoint → Rat) (sha : String → String)
    (render : GeoPoint → GeoPoint → Rat → Rat → String) (o : Order)
    (a : LogisticsAssignment) (mid : Nat) (mloc : GeoPoint) :
    (∀ b1 b2 : Option Buyer,
      dispute_proof_of_location haversine_m sha render o (some a) mid mloc
          b1 =
        dispute_proof_of_location haversine_m sha render o (some a) mid mloc
          b2) ∧
      (a.middleman_id = mid → o.status = OrderStatus.IN_TRANSIT →
        ∀ b : Option Buyer,
          dispute_proof_of_location haversine_m sha render o (some a) mid
              mloc b =
            Except.ok
              (decide (haversine_m mloc dispute_buyer_point ≤ 100),
                ((round (haversine_m mloc dispute_buyer_point * 100) : Int) :
                    Rat) / 100,
                sha (render mloc dispute_buyer_point 100
                  (haversine_m mloc dispute_buyer_point)),
                { middleman_lat := mloc.latitude
                  middleman_lon := mloc.longitude
                  buyer_lat := 13.0827
                  buyer_lon := 80.2707
                  distance_m :=
                    ((round (haversine_m mloc dispute_buyer_point * 100) :
                        Int) : Rat) / 100
                  threshold_m := 100
                  within_threshold :=
                    decide (haversine_m mloc dispute_buyer_point ≤ 100)
                  postgis_query_hash :=
                    sha (render mloc dispute_buyer_point 100
                      (haversine_m mloc dispute_buyer_point)) })) := by
  constructor
  · intro b1 b2
    rfl
  · intro hmid hst b
    simp [dispute_proof_of_location, check_middleman_at_buyer, hmid, hst]
    exact ⟨rfl, rfl⟩

/-- The middleman location a few blocks from the constant buyer point. -/
def mloc_demo : GeoPoint := { latitude := 13.0830, longitude := 80.2710 }

/-- A buyer row whose stored delivery location is far from everything. -/
def buyer_demo : Buyer :=
  { id := 3, delivery_location := some { latitude := 0, longitude := 0 } }

/-- C10 witness: with a 42 m distance oracle the dispute primitive, run on
the concrete IN_TRANSIT order, ignores the buyer row (same result with
and without it) and reports within = true at the constant point. -/
theorem dispute_constant_buyer_contract_witness :
    dispute_proof_of_location (fun _ _ => 42) (fun s => s)
        (fun _ _ _ _ => "proof") order_it (some asg_demo) 9 mloc_demo
        (some buyer_demo) =
      dispute_proof_of_location (fun _ _ => 42) (fun s => s)
        (fun _ _ _ _ => "proof") order_it (some asg_demo) 9 mloc_demo
        none ∧
    dispute_proof_of_location (fun _ _ => 42) (fun s => s)
        (fun _ _ _ _ => "proof") order_it (some asg_demo) 9 mloc_demo
        (some buyer_demo) =
      Except.ok
        (true, 42, "proof",
          { middleman_lat := 13.0830, middleman_lon := 80.2710
            buyer_lat := 13.0827, buyer_lon := 80.2707
            distance_m := 42, threshold_m := 100
            within_threshold := true, postgis_query_hash := "proof" }) := by
  constructor
  · exact (dispute_constant_buyer_contract (fun _ _ => 42) (fun s => s)
      (fun _ _ _ _ => "proof") order_it asg_demo 9 mloc_demo).1
      (some buyer_demo) none
  · rw [(dispute_constant_buyer_contract (fun _ _ => 42) (fun s => s)
      (fun _ _ _ _ => "proof") order_it asg_demo 9 mloc_demo).2 rfl rfl
      (some buyer_demo)]
    norm_num [mloc_demo]

/-- C3: the endpoint call passes the keyword requires_cold_chain, which is
not among the declared parameters of find_middlemen_near_route, so the
call raises TypeError instead of searching; and the WHERE clause of the
query selects an available VENTILATED truck inside the buffer, i.e. it
applies no REEFER restriction at all. -/
theorem cold_chain_filter_divergence :
    keywords_accepted find_middlemen_near_route_params
        search_endpoint_keyword_args =
      false ∧
    route_query_selects
        { is_available := true, has_current_location := true
          truck_type := TruckType.VENTILATED, within_route_buffer := true } =
      true := by
  exact ⟨rfl, rfl⟩

/-- C5 witness: the amended statement instantiated on the concrete accept
of the 1.5 kg at 0.77 bid. -/
theorem accept_bid_escrow_contract_witness :
    ∃ db2 esc, accept_bid (fun s => s) db_c5 0 7 2 "rp" "rd" =
        Except.ok (db2, esc, "rp", "rd") ∧
      esc.total_amount_cents =
        Int.floor (bid_c5.volume_kg * bid_c5.offered_price_per_kg * 100) ∧
      esc.status = EscrowStatus.WAITING_FUNDS ∧
      db2.escrows = db_c5.escrows ++ [esc] :=
  accept_bid_escrow_contract (fun s => s) db_c5 0 7 2 "rp" "rd" bid_c5
    order_c5 rfl rfl rfl rfl rfl (by norm_num [bid_c5, order_c5])

theorem status_change_keeps_volume (b : Bid) (bid_id : Nat) (oid : Nat) :
    ((if b.id = bid_id then { b with status := BidStatus.ACCEPTED }
      else if b.order_id = oid ∧ b.status = BidStatus.PENDING then
        { b with status := BidStatus.REJECTED }
      else b) : Bid).volume_kg = b.volume_kg := by
  split_ifs <;> rfl

theorem submit_bid_inv (db : Db) (oid buyer : Nat) (p v : Rat)
    (msg : Option String) (nid : Nat) (db2 : Db) (bid2 : Bid)
    (h : submit_bid db oid buyer p v msg nid = Except.ok (db2, bid2)) :
    bid2.volume_kg = v ∧
      db2.bids = db.bids ++ [bid2] ∧
      ∀ i, (db2.orders i).map Order.available_volume_kg =
          (db.orders i).map Order.available_volume_kg ∧
        (db2.orders i).map Order.total_volume_kg =
          (db.orders i).map Order.total_volume_kg := by
  unfold submit_bid at h
  split at h
  · exact absurd h (by simp)
  · rename_i o horder
    split at h
    · exact absurd h (by simp)
    · split at h
      · exact absurd h (by simp)
      · split at h
        · simp only [Except.ok.injEq, Prod.mk.injEq] at h
          obtain ⟨rfl, rfl⟩ := h.symm
          refine ⟨rfl, rfl, ?_⟩
          intro i
          by_cases hi : i = oid
          · subst hi
            simp [setOrderAt, horder]
          · simp [setOrderAt, hi]
        · simp only [Except.ok.injEq, Prod.mk.injEq] at h
          obtain ⟨rfl, rfl⟩ := h.symm
          exact ⟨rfl, rfl, fun i => ⟨rfl, rfl⟩⟩

theorem accept_bid_inv (sha : String → String) (db : Db)
    (now fid bid_id : Nat) (rp rd : String) (db2 : Db) (esc : Escrow)
    (rp2 rd2 : String)
    (h : accept_bid sha db now fid bid_id rp rd =
      Except.ok (db2, esc, rp2, rd2)) :
    ∃ bid o, findBid db bid_id = some bid ∧
      db.orders bid.order_id = some o ∧
      bid.volume_kg ≤ o.available_volume_kg ∧
      (∀ i, i ≠ bid.order_id → db2.orders i = db.orders i) ∧
      (∃ o2, db2.orders bid.order_id = some o2 ∧
        o2.available_volume_kg = o.available_volume_kg - bid.volume_kg ∧
        o2.total_volume_kg = o.total_volume_kg) ∧
      ∀ b ∈ db2.bids, ∃ b0 ∈ db.bids, b.volume_kg = b0.volume_kg := by
  unfold accept_bid at h
  split at h
  · exact absurd h (by simp)
  · rename_i bid hfind
    split at h
    · exact absurd h (by simp)
    · rename_i o horder
      split at h
      · exact absurd h (by simp)
      · split at h
        · exact absurd h (by simp)
        · split at h
          · exact absurd h (by simp)
          · split at h
            · exact absurd h (by simp)
            · rename_i h1 h2 h3 h4
              simp only [Except.ok.injEq, Prod.mk.injEq] at h
              obtain ⟨hdb2, -, -, -⟩ := h
              subst hdb2
              refine ⟨bid, o, hfind, horder, not_lt.mp h4, ?_, ?_, ?_⟩
              · intro i hi
                simp [setOrderAt, hi]
              · exact ⟨{ o with
                    available_volume_kg :=
                      o.available_volume_kg - bid.volume_kg
                    buyer_id := some bid.buyer_id
                    accepted_price := some bid.offered_price_per_kg
                    pickup_qr_hash := some (sha rp)
                    delivery_qr_hash := some (sha rd)
                    status := OrderStatus.LOGISTICS_SEARCH
                    logistics_search_started_at := some now },
                  by simp [setOrderAt], rfl, rfl⟩
              · intro b hb
                rcases List.mem_map.mp hb with ⟨b0, hb0, rfl⟩
                exact ⟨b0, hb0,
                  status_change_keeps_volume b0 bid_id o.id⟩

theorem dbVolumesOk_submit (sha : String → String) (db : Db)
    (oid buyer : Nat) (p v : Rat) (msg : Option String) (nid : Nat)
    (hv : 0 < v) (hok : dbVolumesOk db) :
    dbVolumesOk (runMarketOp sha db (MarketOp.submit oid buyer p v msg nid)) := by
  show dbVolumesOk
    (match submit_bid db oid buyer p v msg nid with
      | Except.ok r => r.1
      | Except.error _ => db)
  cases hsub : submit_bid db oid buyer p v msg nid with
  | error e => exact hok
  | ok r =>
      obtain ⟨hvol, hbids, horders⟩ :=
        submit_bid_inv db oid buyer p v msg nid r.1 r.2 (by rw [hsub])
      constructor
      · intro i o2 h
        have ha := (horders i).1
        have ht := (horders i).2
        rw [h] at ha ht
        cases hdb : db.orders i with
        | none => rw [hdb] at ha; simp at ha
        | some o1 =>
            rw [hdb] at ha ht
            simp only [Option.map_some'] at ha ht
            have := hok.1 i o1 hdb
            rw [Option.some.injEq] at ha ht
            rw [ha, ht]
            exact this
      · intro b hb
        rw [hbids] at hb
        rcases List.mem_append.mp hb with hb | hb
        · exact hok.2 b hb
        · rcases List.mem_singleton.mp hb with rfl
          rw [hvol]
          exact hv

theorem dbVolumesOk_accept (sha : String → String) (db : Db)
    (now fid bid_id : Nat) (rp rd : String) (hok : dbVolumesOk db) :
    dbVolumesOk (runMarketOp sha db (MarketOp.accept now fid bid_id rp rd)) := by
  show dbVolumesOk
    (match accept_bid sha db now fid bid_id rp rd with
      | Except.ok r => r.1
      | Except.error _ => db)
  cases hacc : accept_bid sha db now fid bid_id rp rd with
  | error e => exact hok
  | ok r =>
      obtain ⟨bid, o, hfind, horder, hvol, hother, ⟨o2, ho2, ha2, ht2⟩,
        hbids⟩ :=
        accept_bid_inv sha db now fid bid_id rp rd r.1 r.2.1 r.2.2.1 r.2.2.2
          (by rw [hacc])
      have hmem : bid ∈ db.bids := List.mem_of_find?_eq_some hfind
      have hbv : 0 < bid.volume_kg := hok.2 bid hmem
      have hbounds := hok.1 bid.order_id o horder
      constructor
      · intro i ox h
        by_cases hi : i = bid.order_id
        · subst hi
          rw [h] at ho2
          obtain rfl := Option.some.inj ho2
          constructor
          · rw [ha2]
            linarith
          · rw [ha2, ht2]
            linarith [hbounds.2]
        · rw [hother i hi] at h
          exact hok.1 i ox h
      · intro b hb
        rcases hbids b hb with ⟨b0, hb0, hv0⟩
        rw [hv0]
        exact hok.2 b0 hb0

theorem dbVolumesOk_step (sha : String → String) (db : Db) (op : MarketOp)
    (hval : op.schemaValid) (hok : dbVolumesOk db) :
    dbVolumesOk (runMarketOp sha db op) := by
  cases op with
  | submit oid buyer p v msg nid =>
      exact dbVolumesOk_submit sha db oid buyer p v msg nid hval.2 hok
  | accept now fid bid_id rp rd =>
      exact dbVolumesOk_accept sha db now fid bid_id rp rd hok

theorem dbVolumesOk_run (sha : String → String) (db : Db)
    (ops : List MarketOp) (hok : dbVolumesOk db)
    (hval : ∀ op ∈ ops, op.schemaValid) :
    dbVolumesOk (runMarketOps sha db ops) := by
  induction ops generalizing db with
  | nil => exact hok
  | cons op ops ih =>
      exact ih (runMarketOp sha db op)
        (dbVolumesOk_step sha db op (hval op (List.mem_cons_self op ops)) hok)
        (fun o ho => hval o (List.mem_cons_of_mem op ho))

/-- C4: submit_bid never changes available_volume_kg; on an order open for
bidding it rejects a bid whose volume strictly exceeds available_volume_kg
with InsufficientVolume, while a bid of exactly available_volume_kg passes
the volume check and is inserted; accept_bid (all its guards met)
decrements available_volume_kg by exactly the accepted bid volume; and
across any sequence of schema-valid submit_bid / accept_bid operations
every order keeps available_volume_kg between 0 and total_volume_kg. -/
theorem bid_volume_contract (sha : String → String) :
    (∀ db oid buyer p v msg nid db2 bid2,
      submit_bid db oid buyer p v msg nid = Except.ok (db2, bid2) →
      ∀ i, (db2.orders i).map Order.available_volume_kg =
        (db.orders i).map Order.available_volume_kg) ∧
      (∀ db oid buyer p v msg nid (o : Order), db.orders oid = some o →
        (o.status = OrderStatus.LISTED ∨
          o.status = OrderStatus.NEGOTIATING) →
        o.available_volume_kg < v →
        submit_bid db oid buyer p v msg nid =
          Except.error FsmError.InsufficientVolume) ∧
      (∀ db oid buyer p msg nid (o : Order), db.orders oid = some o →
        (o.status = OrderStatus.LISTED ∨
          o.status = OrderStatus.NEGOTIATING) →
        (submit_bid db oid buyer p o.available_volume_kg msg nid).isOk =
          true) ∧
      (∀ db now fid bid_id rp rd (bid : Bid) (o : Order),
        findBid db bid_id = some bid →
        db.orders bid.order_id = some o →
        o.farmer_id = fid →
        o.status = OrderStatus.NEGOTIATING →
        bid.status = BidStatus.PENDING →
        bid.volume_kg ≤ o.available_volume_kg →
        ∃ db2 esc, accept_bid sha db now fid bid_id rp rd =
            Except.ok (db2, esc, rp, rd) ∧
          ∃ o2, db2.orders bid.order_id = some o2 ∧
            o2.available_volume_kg =
              o.available_volume_kg - bid.volume_kg) ∧
      ∀ db ops, dbVolumesOk db → (∀ op ∈ ops, MarketOp.schemaValid op) →
        dbVolumesOk (runMarketOps sha db ops) := by
  refine ⟨?_, ?_, ?_, ?_, ?_⟩
  · intro db oid buyer p v msg nid db2 bid2 h i
    exact ((submit_bid_inv db oid buyer p v msg nid db2 bid2 h).2.2 i).1
  · intro db oid buyer p v msg nid o horder hst hlt
    have h1 : ¬(o.status ≠ OrderStatus.LISTED ∧
        o.status ≠ OrderStatus.NEGOTIATING) := by
      rcases hst with h | h <;> simp [h]
    simp [submit_bid, horder, h1, hlt]
  · intro db oid buyer p msg nid o horder hst
    have h1 : ¬(o.status ≠ OrderStatus.LISTED ∧
        o.status ≠ OrderStatus.NEGOTIATING) := by
      rcases hst with h | h <;> simp [h]
    have h2 : ¬(o.available_volume_kg > o.available_volume_kg) :=
      lt_irrefl _
    by_cases h3 : o.status = OrderStatus.LISTED
    · simp [submit_bid, horder, h1, h2, h3, Except.isOk, Except.toBool]
    · have h4 : o.status = OrderStatus.NEGOTIATING := hst.resolve_left h3
      simp [submit_bid, horder, h1, h2, h3, h4, Except.isOk, Except.toBool]
  · intro db now fid bid_id rp rd bid o hfind horder hown hst hbs hvol
    refine ⟨_, _, accept_bid_ok sha db now fid bid_id rp rd bid o hfind
      horder hown hst hbs hvol,
      ⟨{ o with
          available_volume_kg := o.available_volume_kg - bid.volume_kg
          buyer_id := some bid.buyer_id
          accepted_price := some bid.offered_price_per_kg
          pickup_qr_hash := some (sha rp)
          delivery_qr_hash := some (sha rd)
          status := OrderStatus.LOGISTICS_SEARCH
          logistics_search_started_at := some now },
        by simp [setOrderAt], rfl⟩⟩
  · intro db ops hok hval
    exact dbVolumesOk_run sha db ops hok hval

/-- A freshly LISTED 100 kg order, as POST /orders creates it with
available_volume_kg equal to total_volume_kg. -/
def order_listed : Order :=
  { id := 1, farmer_id := 7, buyer_id := none, total_volume_kg := 100
    available_volume_kg := 100, unit_price_asking := 1
    accepted_price := none, status := OrderStatus.LISTED
    requires_cold_chain := false, logistics_search_started_at := none
    pickup_qr_hash := none, delivery_qr_hash := none, settled_at := none }

/-- The database holding only order_listed. -/
def db_listed : Db :=
  { orders := fun i => if i = 1 then some order_listed else none
    bids := [], escrows := [], audit_logs := [] }

/-- Scenario A operations: buyer 3 bids 40 kg, the farmer accepts. -/
def scenarioOps : List MarketOp :=
  [MarketOp.submit 1 3 (3/4) 40 none 2, MarketOp.accept 0 7 2 "rp" "rd"]

/-- C4 witness: the volume invariant run over Scenario A from the fresh
listing. -/
theorem bid_volume_contract_witness :
    dbVolumesOk db_listed ∧
      (∀ op ∈ scenarioOps, MarketOp.schemaValid op) ∧
      dbVolumesOk (runMarketOps (fun s => s) db_listed scenarioOps) := by
  have hok : dbVolumesOk db_listed := by
    constructor
    · intro i o h
      by_cases hi : i = 1
      · subst hi
        have ho : o = order_listed := by
          simpa [db_listed] using h.symm
        subst ho
        norm_num [order_listed]
      · simp [db_listed, hi] at h
    · intro b hb
      cases hb
  have hval : ∀ op ∈ scenarioOps, MarketOp.schemaValid op := by
    intro op hop
    simp only [scenarioOps, List.mem_cons, List.mem_singleton] at hop
    rcases hop with rfl | rfl | h
    · constructor <;> norm_num
    · trivial
    · cases h
  exact ⟨hok, hval,
    (bid_volume_contract (fun s => s)).2.2.2.2 db_listed scenarioOps hok hval⟩

end AgriMatch
